import Mathlib

/-!
Verification of the hermes relayer command adapter
(`relayer/hermes/hermes_relayer.go`) and the dockerutil test fixture
(`dockerutil` package) of jonathanpberger/interchaintest.

The Go code is shallowly embedded: pure command builders become Lean
functions on `String`/`List String`; the external JSON decoder
(`encoding/json.Unmarshal` into structs of the external `ibc` package) is a
parameter `decode : String → Option α`; errors (`error` values in Go) become
`Except String` / `Option String`; the Docker client's effects are modelled
by an explicit state of labelled containers and networks plus a trace of the
client calls the cleanup routine attempts.
-/

set_option linter.unusedVariables false

/-- Go `error` values, abstracted to their message. -/
def GoErr : Type := String

/-- Splitting a character list at a separator character, accumulating the
current field in reverse.  Structural recursion so the kernel can evaluate it. -/
def splitChAux (sep : Char) : List Char → List Char → List String
  | [], acc => [String.mk acc.reverse]
  | c :: cs, acc =>
      if c = sep then String.mk acc.reverse :: splitChAux sep cs []
      else splitChAux sep cs (c :: acc)

/-- Go `strings.Split(s, sep)` for a one-character separator: the fields
between occurrences of `sep`, so `splitCh sep "" = [""]`. -/
def splitCh (sep : Char) (s : String) : List String :=
  splitChAux sep s.data []

/-- Go `unicode.IsSpace` on the whitespace characters relevant to Latin-1:
space, tab, newline, vertical tab, form feed, carriage return, NEL, NBSP. -/
def goIsSpace (c : Char) : Bool :=
  c = ' ' || c = '\t' || c = '\n' || c = '\x0B' || c = '\x0C' || c = '\r' ||
  c = '\u0085' || c = '\u00A0'

/-- Go `strings.TrimSpace`: drop leading and trailing whitespace. -/
def goTrimSpace (s : String) : String :=
  String.mk (((s.data.dropWhile goIsSpace).reverse.dropWhile goIsSpace).reverse)

/-- Whether a path string is rooted (begins with a slash). -/
def isRootedPath (s : String) : Bool :=
  match s.data with
  | '/' :: _ => true
  | _ => false

/-- One step of Go `path.Clean`'s element scan over an already-split path:
`acc` is the stack of kept elements in reverse order. -/
def cleanStep (rooted : Bool) (acc : List String) (comp : String) : List String :=
  if comp = "" || comp = "." then acc
  else if comp = ".." then
    match acc with
    | [] => if rooted then [] else [".."]
    | top :: rest => if top = ".." then comp :: acc else rest
  else comp :: acc

/-- Join path elements with `/` (no cleaning). -/
def joinSlash : List String → String
  | [] => ""
  | [s] => s
  | s :: rest => s ++ "/" ++ joinSlash rest

/-- Go `path.Clean` on Unix paths: collapse empty and `.` elements, resolve
`..`, keep a leading slash, return `.` for an empty relative result. -/
def pathClean (p : String) : String :=
  let rooted := isRootedPath p
  let comps := (splitCh '/' p).foldl (cleanStep rooted) []
  let out := joinSlash comps.reverse
  if rooted then (if out = "" then "/" else "/" ++ out)
  else (if out = "" then "." else out)

/-- Go `filepath.Join` on Unix: drop leading empty elements, join the rest
with the separator, and `Clean` the result; all-empty input gives `""`. -/
def filepathJoin (elems : List String) : String :=
  match elems.dropWhile (fun e => e = "") with
  | [] => ""
  | rest => pathClean (joinSlash rest)

/-- The options argument of `CreateChannel`/`LinkPath`
(`ibc.CreateChannelOptions`, external); never inspected by this code. -/
structure CreateChannelOptions where
  mk ::

namespace commander

/-- `commander.getSourceChainIDFromPath`: stubbed in the source to return
`("", nil)` for every input. -/
def getSourceChainIDFromPath (pathName homedir : String) : Except GoErr String :=
  .ok ""

/-- `commander.getDestinationChainIDFromPath`: stubbed to `("", nil)`. -/
def getDestinationChainIDFromPath (pathName homedir : String) : Except GoErr String :=
  .ok ""

/-- `commander.getDestinationClientIDFromPath`: stubbed to `("", nil)`. -/
def getDestinationClientIDFromPath (pathName homedir : String) : Except GoErr String :=
  .ok ""

/-- `commander.getSourcePortIDFromPath`: stubbed to `("", nil)`. -/
def getSourcePortIDFromPath (pathName homedir : String) : Except GoErr String :=
  .ok ""

/-- `commander.Init`. -/
def Init (homeDir : String) : List String :=
  ["hermes", "config", "init", "--home", homeDir]

/-- `commander.AddChainConfiguration`. -/
def AddChainConfiguration (containerFilePath homeDir : String) : List String :=
  ["hermes", "chains", "add", "-f", containerFilePath, "--home", homeDir]

/-- `commander.AddKey`.  Note the config path is
`filepath.Join(homeDir, "hermes", "config.toml")`, unlike every other
builder, which uses `filepath.Join(homeDir, "config.toml")`. -/
def AddKey (chainID keyName homeDir : String) : List String :=
  ["hermes", "keys", "add", chainID, "-n", keyName,
   "-c", filepathJoin [homeDir, "hermes", "config.toml"], "-j"]

/-- `commander.ClearQueue`, generalised over the two identifier lookups it
performs (the source calls its own stubbed methods; see `ClearQueue`). -/
def ClearQueueWith (lookupSrcChain lookupSrcPort : String → String → Except GoErr String)
    (pathName channelID homeDir : String) : List String :=
  match lookupSrcChain pathName homeDir with
  | .error _ => []
  | .ok chainID =>
    match lookupSrcPort pathName homeDir with
    | .error _ => []
    | .ok portID =>
      ["hermes", "clear", "packets", chainID, portID, channelID,
       "-c", filepathJoin [homeDir, "config.toml"], "-j"]

/-- `commander.ClearQueue`. -/
def ClearQueue (pathName channelID homeDir : String) : List String :=
  ClearQueueWith getSourceChainIDFromPath getSourcePortIDFromPath pathName channelID homeDir

/-- `commander.CreateChannel`: returns an empty token list unconditionally. -/
def CreateChannel (pathName : String) (opts : CreateChannelOptions) (homeDir : String) :
    List String :=
  []

/-- `commander.CreateClients`, generalised over the two identifier lookups. -/
def CreateClientsWith (lookupSrcChain lookupDstChain : String → String → Except GoErr String)
    (pathName homeDir : String) : List String :=
  match lookupSrcChain pathName homeDir with
  | .error _ => []
  | .ok srcChainID =>
    match lookupDstChain pathName homeDir with
    | .error _ => []
    | .ok dstChainID =>
      ["hermes", "create", "client", srcChainID, dstChainID,
       "-c", filepathJoin [homeDir, "config.toml"], "-j"]

/-- `commander.CreateClients`. -/
def CreateClients (pathName homeDir : String) : List String :=
  CreateClientsWith getSourceChainIDFromPath getDestinationChainIDFromPath pathName homeDir

/-- `commander.CreateConnections`, generalised over the two identifier lookups. -/
def CreateConnectionsWith (lookupSrcChain lookupDstChain : String → String → Except GoErr String)
    (pathName homeDir : String) : List String :=
  match lookupSrcChain pathName homeDir with
  | .error _ => []
  | .ok srcChainID =>
    match lookupDstChain pathName homeDir with
    | .error _ => []
    | .ok dstChainID =>
      ["hermes", "tx", "connection", srcChainID, dstChainID,
       "-c", filepathJoin [homeDir, "config.toml"], "-j"]

/-- `commander.CreateConnections`. -/
def CreateConnections (pathName homeDir : String) : List String :=
  CreateConnectionsWith getSourceChainIDFromPath getDestinationChainIDFromPath pathName homeDir

/-- `commander.FlushAcknowledgements`: returns an empty token list unconditionally. -/
def FlushAcknowledgements (pathName channelID homeDir : String) : List String :=
  []

/-- `commander.FlushPackets`: returns an empty token list unconditionally. -/
def FlushPackets (pathName channelID homeDir : String) : List String :=
  []

/-- `commander.GeneratePath`. -/
def GeneratePath (srcChainID dstChainID pathName homeDir : String) : List String :=
  ["hermes", "paths", "new", srcChainID, dstChainID, pathName,
   "-c", filepathJoin [homeDir, "config.toml"], "-j"]

/-- `commander.GetChannels`. -/
def GetChannels (chainID homeDir : String) : List String :=
  ["hermes", "q", "channels", chainID,
   "-c", filepathJoin [homeDir, "config.toml"], "-j"]

/-- `commander.GetConnections`. -/
def GetConnections (chainID homeDir : String) : List String :=
  ["hermes", "q", "connections", chainID,
   "-c", filepathJoin [homeDir, "config.toml"], "-j"]

/-- `commander.LinkPath`. -/
def LinkPath (pathName homeDir : String) (opts : CreateChannelOptions) : List String :=
  ["hermes", "tx", "link", pathName,
   "-c", filepathJoin [homeDir, "config.toml"], "-j"]

/-- `commander.RestoreKey`. -/
def RestoreKey (chainID keyName mnemonic homeDir : String) : List String :=
  ["hermes", "keys", "restore", chainID, "-n", keyName, "-m", mnemonic,
   "-c", filepathJoin [homeDir, "config.toml"], "-j"]

/-- `commander.StartRelayer`. -/
def StartRelayer (pathName homeDir : String) : List String :=
  ["hermes", "start", "-c", filepathJoin [homeDir, "config.toml"], "-j"]

/-- `commander.UpdateClients`, generalised over the two identifier lookups. -/
def UpdateClientsWith (lookupDstChain lookupDstClient : String → String → Except GoErr String)
    (pathName homeDir : String) : List String :=
  match lookupDstChain pathName homeDir with
  | .error _ => []
  | .ok dstChainID =>
    match lookupDstClient pathName homeDir with
    | .error _ => []
    | .ok dstClientID =>
      ["hermes", "update", "client", dstChainID, dstClientID,
       "-c", filepathJoin [homeDir, "config.toml"], "-j"]

/-- `commander.UpdateClients`. -/
def UpdateClients (pathName homeDir : String) : List String :=
  UpdateClientsWith getDestinationChainIDFromPath getDestinationClientIDFromPath pathName homeDir

/-- The loop body shared by `ParseGetChannelsOutput`,
`ParseGetConnectionsOutput` and `ParseRestoreKeyOutput`: skip a line whose
`strings.TrimSpace` is empty, try `json.Unmarshal` (the abstract `decode`),
log-and-skip a failing line, append a successful record. -/
def accumulateLine {α : Type} (decode : String → Option α) (acc : List α) (line : String) :
    List α :=
  if goTrimSpace line = "" then acc
  else
    match decode line with
    | none => acc
    | some record => acc ++ [record]

/-- `commander.ParseGetChannelsOutput`: split stdout on newlines, decode each
non-blank line into an `ibc.ChannelOutput` (abstract element type `α`,
decoder `decode`), and return the accumulated successes with a nil error. -/
def ParseGetChannelsOutput {α : Type} (decode : String → Option α) (stdout stderr : String) :
    List α × Option GoErr :=
  ((splitCh '\n' stdout).foldl (accumulateLine decode) [], none)

/-- `commander.ParseGetConnectionsOutput`: identical line loop over
`ibc.ConnectionOutput` records, returning the successes and a nil error. -/
def ParseGetConnectionsOutput {α : Type} (decode : String → Option α) (stdout stderr : String) :
    List α × Option GoErr :=
  ((splitCh '\n' stdout).foldl (accumulateLine decode) [], none)

/-- `commander.ParseRestoreKeyOutput`: runs the same connection-record loop
over stdout, binds the accumulated list to a local, and returns `""`. -/
def ParseRestoreKeyOutput {α : Type} (decode : String → Option α) (stdout stderr : String) :
    String :=
  let connections := (splitCh '\n' stdout).foldl (accumulateLine decode) []
  let _ := connections
  ""

end commander

/-- An IEEE-754 float64 value by its bit pattern.  The Go code only passes
`float64` fields through unchanged, so no arithmetic is modelled — but
`json.Marshal` inspects finiteness, so that much of the format matters. -/
structure GoFloat64 where
  bits : Nat
deriving DecidableEq

/-- Whether a float64 bit pattern is finite: its exponent field
(bits 62..52) is not all ones (all ones encodes ±Inf and NaN).  Go's
`json.Marshal` fails with an `UnsupportedValueError` exactly on the
non-finite values. -/
def GoFloat64.isFinite (x : GoFloat64) : Bool :=
  decide (¬(x.bits / 2 ^ 52 % 2 ^ 11 = 2047))

/-- A JSON value as `encoding/json` produces it for the structures at hand:
strings, booleans, numbers (float64) and objects with ordered fields. -/
inductive Jval : Type
  | str (s : String)
  | bool (b : Bool)
  | num (x : GoFloat64)
  | obj (fields : List (String × Jval))

/-- The fields of the external `ibc.ChainConfig` that
`ChainConfigToHermesRelayerChainConfig` reads (`Type`, `ChainID`,
`Bech32Prefix`, `GasAdjustment`, `GasPrices`); the rest are never consumed. -/
structure ChainConfig where
  typ : String
  chainID : String
  bech32Pfx : String
  gasAdjustment : GoFloat64
  gasPrices : String
deriving DecidableEq

/-- `HermesRelayerChainConfigValue`, fields in Go declaration order (the
order `json.Marshal` emits). -/
structure HermesRelayerChainConfigValue where
  accountPfx : String
  chainID : String
  debug : Bool
  grpcAddr : String
  gasAdjustment : GoFloat64
  gasPrices : String
  key : String
  keyringBackend : String
  outputFormat : String
  rpcAddr : String
  signMode : String
  timeout : String
deriving DecidableEq

/-- `HermesRelayerChainConfig`. -/
structure HermesRelayerChainConfig where
  typ : String
  value : HermesRelayerChainConfigValue
deriving DecidableEq

/-- `keyring.BackendTest` of the cosmos-sdk keyring package. -/
def backendTest : String := "test"

/-- `ChainConfigToHermesRelayerChainConfig`. -/
def ChainConfigToHermesRelayerChainConfig (chainConfig : ChainConfig)
    (keyName rpcAddr gprcAddr : String) : HermesRelayerChainConfig :=
  { typ := chainConfig.typ
    value :=
      { key := keyName
        chainID := chainConfig.chainID
        rpcAddr := rpcAddr
        grpcAddr := gprcAddr
        accountPfx := chainConfig.bech32Pfx
        keyringBackend := backendTest
        gasAdjustment := chainConfig.gasAdjustment
        gasPrices := chainConfig.gasPrices
        debug := true
        timeout := "10s"
        outputFormat := "json"
        signMode := "direct" } }

/-- `json.Marshal` of `HermesRelayerChainConfigValue`: the JSON object with
the tagged field names in struct declaration order. -/
def encodeValue (v : HermesRelayerChainConfigValue) : List (String × Jval) :=
  [("account-prefix", .str v.accountPfx),
   ("chain-id", .str v.chainID),
   ("debug", .bool v.debug),
   ("grpc-addr", .str v.grpcAddr),
   ("gas-adjustment", .num v.gasAdjustment),
   ("gas-prices", .str v.gasPrices),
   ("key", .str v.key),
   ("keyring-backend", .str v.keyringBackend),
   ("output-format", .str v.outputFormat),
   ("rpc-addr", .str v.rpcAddr),
   ("sign-mode", .str v.signMode),
   ("timeout", .str v.timeout)]

/-- `json.Marshal` of `HermesRelayerChainConfigValue`: the encoder visits
every field and fails with an `UnsupportedValueError` on a non-finite
float64; `gas-adjustment` is the only float64 field, so marshalling
succeeds exactly when it is finite, producing the object `encodeValue`
describes.  (The Go error message also names the offending value; the
embedding abstracts messages.) -/
def marshalValue (v : HermesRelayerChainConfigValue) : Except GoErr (List (String × Jval)) :=
  if v.gasAdjustment.isFinite then .ok (encodeValue v)
  else .error "json: unsupported value"

/-- `json.Marshal` of `HermesRelayerChainConfig`: marshal the nested value
struct (propagating its failure) and wrap it under the two tagged fields. -/
def marshalConfig (c : HermesRelayerChainConfig) : Except GoErr (List (String × Jval)) :=
  match marshalValue c.value with
  | .error e => .error e
  | .ok fields => .ok [("type", Jval.str c.typ), ("value", Jval.obj fields)]

/-- `commander.ConfigContent`: convert the chain config, `json.Marshal` it,
and return the marshalling error when there is one, the JSON otherwise. -/
def ConfigContent (cfg : ChainConfig) (keyName rpcAddr grpcAddr : String) :
    Except GoErr (List (String × Jval)) :=
  match marshalConfig (ChainConfigToHermesRelayerChainConfig cfg keyName rpcAddr grpcAddr) with
  | .error err => .error err
  | .ok jsonBytes => .ok jsonBytes

/-- The value of a named field of a JSON object (first occurrence). -/
def lookupField (obj : List (String × Jval)) (k : String) : Option Jval :=
  (obj.find? (fun p => p.1 = k)).map (fun p => p.2)

/-- Reading a JSON string field. -/
def asStr : Option Jval → Option String
  | some (.str s) => some s
  | _ => none

/-- Reading a JSON boolean field. -/
def asBool : Option Jval → Option Bool
  | some (.bool b) => some b
  | _ => none

/-- Reading a JSON number field. -/
def asNum : Option Jval → Option GoFloat64
  | some (.num x) => some x
  | _ => none

/-- `json.Unmarshal` of a JSON object into `HermesRelayerChainConfigValue`:
look up each tagged field by name and require its documented type. -/
def decodeValue (obj : List (String × Jval)) : Option HermesRelayerChainConfigValue :=
  match asStr (lookupField obj "account-prefix"), asStr (lookupField obj "chain-id"),
        asBool (lookupField obj "debug"), asStr (lookupField obj "grpc-addr"),
        asNum (lookupField obj "gas-adjustment"), asStr (lookupField obj "gas-prices"),
        asStr (lookupField obj "key"), asStr (lookupField obj "keyring-backend"),
        asStr (lookupField obj "output-format"), asStr (lookupField obj "rpc-addr"),
        asStr (lookupField obj "sign-mode"), asStr (lookupField obj "timeout") with
  | some ap, some cid, some dbg, some ga, some gadj, some gp,
    some k, some kb, some ofm, some ra, some sm, some tmo =>
      some ⟨ap, cid, dbg, ga, gadj, gp, k, kb, ofm, ra, sm, tmo⟩
  | _, _, _, _, _, _, _, _, _, _, _, _ => none

namespace dockerutil

/-- `dockerutil.CleanupLabel`: the docker label key scoping cleanup. -/
def CleanupLabel : String := "ibctest"

/-- A docker container as `ListContainers(All: true)` reports it: its ID and
its label map (association list; docker label keys are unique). -/
structure Container where
  id : String
  labels : List (String × String)
deriving DecidableEq

/-- A docker network as `ListNetworks` reports it. -/
structure Network where
  id : String
  labels : List (String × String)
deriving DecidableEq

/-- The docker engine state the cleanup routine observes and mutates. -/
structure DockerState where
  containers : List Container
  networks : List Network
deriving DecidableEq

/-- Whether a resource's label map carries `CleanupLabel` mapped to
`testName` — the condition of the `k == CleanupLabel && v == testName` scan
(the Go loop breaks after the first matching pair, so with unique map keys
this `any` is exactly its effect). -/
def labelMatches (testName : String) (labels : List (String × String)) : Bool :=
  labels.any (fun kv => kv.1 = CleanupLabel && kv.2 = testName)

/-- One docker client call the cleanup routine attempts; every call's error
is discarded (`_ =`) in the source. -/
inductive CleanupAction : Type
  | stopContainer (id : String) (graceSeconds : Nat)
  | waitContainer (id : String) (timeoutSeconds : Nat)
  | removeContainerForce (id : String)
  | removeNetwork (id : String)
deriving DecidableEq

/-- The outcomes of the docker client calls a run of the cleanup routine
makes: whether each listing returns (a failed listing yields no resources to
iterate), and whether each per-resource call succeeds.  The routine reads
none of the per-call results, so only the listings can influence it. -/
structure ClientOutcome where
  listContainersOK : Bool
  listNetworksOK : Bool
  stopOK : String → Bool
  waitOK : String → Bool
  removeContainerOK : String → Bool
  removeNetworkOK : String → Bool

/-- The outcome in which every docker client call succeeds. -/
def allOK : ClientOutcome :=
  ⟨true, true, fun _ => true, fun _ => true, fun _ => true, fun _ => true⟩

/-- The calls `dockerCleanup` attempts for one listed container: for a
matching label, stop with a 10 second grace period, wait bounded by a
5 second timeout, then force-remove; otherwise nothing. -/
def cleanupContainerCalls (testName : String) (c : Container) : List CleanupAction :=
  if labelMatches testName c.labels then
    [.stopContainer c.id 10, .waitContainer c.id 5, .removeContainerForce c.id]
  else []

/-- The calls `dockerCleanup` attempts for one listed network: a direct
remove for a matching label, nothing otherwise. -/
def cleanupNetworkCalls (testName : String) (n : Network) : List CleanupAction :=
  if labelMatches testName n.labels then [.removeNetwork n.id] else []

/-- `dockerutil.dockerCleanup(testName, pool)()`: list all containers,
stop/wait/force-remove each one whose labels match, then list all networks
and remove each one whose labels match.  Returns the docker state after the
run (a resource disappears when its remove call succeeded) and the trace of
attempted client calls.  Every call's error is discarded, so the trace does
not depend on any call's outcome, only the listings gate the iteration. -/
def dockerCleanup (testName : String) (o : ClientOutcome) (s : DockerState) :
    DockerState × List CleanupAction :=
  let listedContainers := if o.listContainersOK then s.containers else []
  let containerCalls := listedContainers.flatMap (cleanupContainerCalls testName)
  let remainingContainers := s.containers.filter (fun c =>
    !(o.listContainersOK && labelMatches testName c.labels && o.removeContainerOK c.id))
  let listedNetworks := if o.listNetworksOK then s.networks else []
  let networkCalls := listedNetworks.flatMap (cleanupNetworkCalls testName)
  let remainingNetworks := s.networks.filter (fun n =>
    !(o.listNetworksOK && labelMatches testName n.labels && o.removeNetworkOK n.id))
  (⟨remainingContainers, remainingNetworks⟩, containerCalls ++ networkCalls)

/-- The ids of the resources of `s` whose labels match, the only legitimate
targets of cleanup calls for `testName`. -/
def matchingTargets (testName : String) (s : DockerState) : List String :=
  (s.containers.filter (fun c => labelMatches testName c.labels)).map Container.id ++
    (s.networks.filter (fun n => labelMatches testName n.labels)).map Network.id

/-- The resource id a cleanup call addresses. -/
def CleanupAction.target : CleanupAction → String
  | .stopContainer i _ => i
  | .waitContainer i _ => i
  | .removeContainerForce i => i
  | .removeNetwork i => i

end dockerutil

/-- Whether a Go `(value, err)` result, embedded as `Except`, is an error. -/
def isErrB {ε α : Type} : Except ε α → Bool
  | .error _ => true
  | .ok _ => false

theorem foldl_accumulateLine {α : Type} (decode : String → Option α) (lines : List String)
    (acc : List α) :
    lines.foldl (commander.accumulateLine decode) acc =
      acc ++ (lines.filter (fun l => goTrimSpace l ≠ "")).filterMap decode := by
  induction lines generalizing acc with
  | nil => simp
  | cons l rest ih =>
    simp only [List.foldl_cons, List.filter_cons]
    by_cases h : goTrimSpace l = ""
    · simp [commander.accumulateLine, h, ih]
    · cases hd : decode l with
      | none => simp [commander.accumulateLine, h, hd, ih]
      | some a => simp [commander.accumulateLine, h, hd, ih]

/-- C2: for every stdout string, `ParseGetChannelsOutput` and
`ParseGetConnectionsOutput` split on newlines, skip blank lines, decode each
remaining line, and return exactly the successfully decoded records in input
order (a malformed line is dropped without aborting the rest), with a nil
error. -/
theorem parse_output_skips_malformed_and_never_errors {α : Type}
    (decode : String → Option α) (stdout stderr : String) :
    commander.ParseGetChannelsOutput decode stdout stderr =
        (((splitCh '\n' stdout).filter (fun l => goTrimSpace l ≠ "")).filterMap decode, none)
    ∧ commander.ParseGetConnectionsOutput decode stdout stderr =
        (((splitCh '\n' stdout).filter (fun l => goTrimSpace l ≠ "")).filterMap decode, none) := by
  constructor <;>
    simp [commander.ParseGetChannelsOutput, commander.ParseGetConnectionsOutput,
      foldl_accumulateLine]

/-- C9: `ParseRestoreKeyOutput` accumulates the decoded connection records
and then discards them, returning the empty string on every input. -/
theorem parseRestoreKeyOutput_always_empty {α : Type} (decode : String → Option α)
    (stdout stderr : String) :
    commander.ParseRestoreKeyOutput decode stdout stderr = "" :=
  rfl

/-- C10: `CreateChannel`, `FlushAcknowledgements` and `FlushPackets` return
the empty token sequence on every input. -/
theorem noop_builders_return_empty (pathName channelID homeDir : String)
    (opts : CreateChannelOptions) :
    commander.CreateChannel pathName opts homeDir = []
    ∧ commander.FlushAcknowledgements pathName channelID homeDir = []
    ∧ commander.FlushPackets pathName channelID homeDir = [] :=
  ⟨rfl, rfl, rfl⟩

/-- C3: each path-based operation returns the empty token sequence exactly
when one of its identifier lookups fails; the four lookups are stubbed to
return `("", nil)` on every input, so the error branch is never taken and
each operation returns its populated command with the looked-up identifiers
as empty strings. -/
theorem path_ops_empty_iff_lookup_fails (pathName channelID homeDir : String) :
    (commander.getSourceChainIDFromPath pathName homeDir = .ok ""
      ∧ commander.getDestinationChainIDFromPath pathName homeDir = .ok ""
      ∧ commander.getDestinationClientIDFromPath pathName homeDir = .ok ""
      ∧ commander.getSourcePortIDFromPath pathName homeDir = .ok "")
    ∧ (∀ lk1 lk2 : String → String → Except GoErr String,
        (commander.CreateClientsWith lk1 lk2 pathName homeDir = []
          ↔ (isErrB (lk1 pathName homeDir) || isErrB (lk2 pathName homeDir)) = true)
        ∧ (commander.CreateConnectionsWith lk1 lk2 pathName homeDir = []
          ↔ (isErrB (lk1 pathName homeDir) || isErrB (lk2 pathName homeDir)) = true)
        ∧ (commander.UpdateClientsWith lk1 lk2 pathName homeDir = []
          ↔ (isErrB (lk1 pathName homeDir) || isErrB (lk2 pathName homeDir)) = true)
        ∧ (commander.ClearQueueWith lk1 lk2 pathName channelID homeDir = []
          ↔ (isErrB (lk1 pathName homeDir) || isErrB (lk2 pathName homeDir)) = true))
    ∧ commander.CreateClients pathName homeDir =
        ["hermes", "create", "client", "", "",
         "-c", filepathJoin [homeDir, "config.toml"], "-j"]
    ∧ commander.CreateConnections pathName homeDir =
        ["hermes", "tx", "connection", "", "",
         "-c", filepathJoin [homeDir, "config.toml"], "-j"]
    ∧ commander.UpdateClients pathName homeDir =
        ["hermes", "update", "client", "", "",
         "-c", filepathJoin [homeDir, "config.toml"], "-j"]
    ∧ commander.ClearQueue pathName channelID homeDir =
        ["hermes", "clear", "packets", "", "", channelID,
         "-c", filepathJoin [homeDir, "config.toml"], "-j"]
    ∧ commander.CreateClients pathName homeDir ≠ []
    ∧ commander.CreateConnections pathName homeDir ≠ []
    ∧ commander.UpdateClients pathName homeDir ≠ []
    ∧ commander.ClearQueue pathName channelID homeDir ≠ [] := by
  refine ⟨⟨rfl, rfl, rfl, rfl⟩, ?_, rfl, rfl, rfl, rfl, ?_, ?_, ?_, ?_⟩
  · intro lk1 lk2
    refine ⟨?_, ?_, ?_, ?_⟩ <;>
      cases h1 : lk1 pathName homeDir <;> cases h2 : lk2 pathName homeDir <;>
        simp [commander.CreateClientsWith, commander.CreateConnectionsWith,
          commander.UpdateClientsWith, commander.ClearQueueWith, isErrB, h1, h2]
  all_goals
    simp [commander.CreateClients, commander.CreateConnections, commander.UpdateClients,
      commander.ClearQueue, commander.CreateClientsWith, commander.CreateConnectionsWith,
      commander.UpdateClientsWith, commander.ClearQueueWith,
      commander.getSourceChainIDFromPath, commander.getDestinationChainIDFromPath,
      commander.getDestinationClientIDFromPath, commander.getSourcePortIDFromPath]

/-- C1 counterexample: the config-file path is not consistent across the
builders.  At home directory `"/home/relayer"`, `AddKey` passes
`-c /home/relayer/hermes/config.toml` while `GetChannels` (like every other
`-c`-taking builder) passes `-c /home/relayer/config.toml`. -/
theorem addKey_config_path_inconsistent :
    commander.AddKey "chain-a" "relayer-key" "/home/relayer" =
        ["hermes", "keys", "add", "chain-a", "-n", "relayer-key",
         "-c", "/home/relayer/hermes/config.toml", "-j"]
    ∧ commander.GetChannels "chain-a" "/home/relayer" =
        ["hermes", "q", "channels", "chain-a",
         "-c", "/home/relayer/config.toml", "-j"]
    ∧ ("/home/relayer/hermes/config.toml" : String) ≠ "/home/relayer/config.toml" :=
  ⟨by decide, by decide, by decide⟩

/-- C1 (amended): every command-builder produces exactly the literal token
vector of §6 with its arguments substituted positionally, where the config
path is `filepath.Join(homeDir, "config.toml")` for every builder except
`AddKey`, which uses `filepath.Join(homeDir, "hermes", "config.toml")`, and
the `<src>`/`<dst>`/`<clientID>` identifiers of the path-based builders are
the looked-up values (empty strings under the stubbed lookups). -/
theorem command_builders_literal_vectors
    (homeDir chainID keyName containerFilePath srcChainID dstChainID pathName mnemonic : String)
    (opts : CreateChannelOptions) :
    commander.Init homeDir = ["hermes", "config", "init", "--home", homeDir]
    ∧ commander.AddChainConfiguration containerFilePath homeDir =
        ["hermes", "chains", "add", "-f", containerFilePath, "--home", homeDir]
    ∧ commander.AddKey chainID keyName homeDir =
        ["hermes", "keys", "add", chainID, "-n", keyName,
         "-c", filepathJoin [homeDir, "hermes", "config.toml"], "-j"]
    ∧ commander.CreateClients pathName homeDir =
        ["hermes", "create", "client", "", "",
         "-c", filepathJoin [homeDir, "config.toml"], "-j"]
    ∧ commander.CreateConnections pathName homeDir =
        ["hermes", "tx", "connection", "", "",
         "-c", filepathJoin [homeDir, "config.toml"], "-j"]
    ∧ commander.GeneratePath srcChainID dstChainID pathName homeDir =
        ["hermes", "paths", "new", srcChainID, dstChainID, pathName,
         "-c", filepathJoin [homeDir, "config.toml"], "-j"]
    ∧ commander.GetChannels chainID homeDir =
        ["hermes", "q", "channels", chainID,
         "-c", filepathJoin [homeDir, "config.toml"], "-j"]
    ∧ commander.GetConnections chainID homeDir =
        ["hermes", "q", "connections", chainID,
         "-c", filepathJoin [homeDir, "config.toml"], "-j"]
    ∧ commander.LinkPath pathName homeDir opts =
        ["hermes", "tx", "link", pathName,
         "-c", filepathJoin [homeDir, "config.toml"], "-j"]
    ∧ commander.RestoreKey chainID keyName mnemonic homeDir =
        ["hermes", "keys", "restore", chainID, "-n", keyName, "-m", mnemonic,
         "-c", filepathJoin [homeDir, "config.toml"], "-j"]
    ∧ commander.StartRelayer pathName homeDir =
        ["hermes", "start", "-c", filepathJoin [homeDir, "config.toml"], "-j"]
    ∧ commander.UpdateClients pathName homeDir =
        ["hermes", "update", "client", "", "",
         "-c", filepathJoin [homeDir, "config.toml"], "-j"] :=
  ⟨rfl, rfl, rfl, rfl, rfl, rfl, rfl, rfl, rfl, rfl, rfl, rfl⟩

/-- C4 counterexample: at a chain configuration whose gas-adjustment is the
canonical NaN bit pattern 0x7FF8000000000000, `json.Marshal` fails with an
`UnsupportedValueError`, and `ConfigContent` returns that error instead of
producing any JSON — so the claim does not hold for every input. -/
theorem configContent_nan_input_errors :
    GoFloat64.isFinite ⟨9221120237041090560⟩ = false
    ∧ ConfigContent ⟨"cosmos", "chain-1", "cosmos", ⟨9221120237041090560⟩, "0.01stake"⟩
        "relayer-key" "rpc:26657" "grpc:9090" = .error "json: unsupported value" :=
  ⟨by decide, rfl⟩

/-- C4 (amended): for every chain configuration whose gas-adjustment is a
finite float64 (on a non-finite one `json.Marshal` fails and `ConfigContent`
returns its error), `ConfigContent` produces the JSON object whose `value`
carries exactly the twelve documented field names, the pass-through fields
mirroring the inputs and the constants being `"test"`, `true`, `"10s"`,
`"json"` and `"direct"`; decoding the value object and re-encoding it
preserves it. -/
theorem configContent_fields_and_roundtrip (cfg : ChainConfig)
    (keyName rpcAddr grpcAddr : String)
    (hfin : cfg.gasAdjustment.isFinite = true) :
    ConfigContent cfg keyName rpcAddr grpcAddr =
        .ok [("type", Jval.str cfg.typ),
             ("value", Jval.obj
               [("account-prefix", Jval.str cfg.bech32Pfx),
                ("chain-id", Jval.str cfg.chainID),
                ("debug", Jval.bool true),
                ("grpc-addr", Jval.str grpcAddr),
                ("gas-adjustment", Jval.num cfg.gasAdjustment),
                ("gas-prices", Jval.str cfg.gasPrices),
                ("key", Jval.str keyName),
                ("keyring-backend", Jval.str "test"),
                ("output-format", Jval.str "json"),
                ("rpc-addr", Jval.str rpcAddr),
                ("sign-mode", Jval.str "direct"),
                ("timeout", Jval.str "10s")])]
    ∧ (encodeValue (ChainConfigToHermesRelayerChainConfig cfg keyName rpcAddr grpcAddr).value).map
          Prod.fst
        = ["account-prefix", "chain-id", "debug", "grpc-addr", "gas-adjustment", "gas-prices",
           "key", "keyring-backend", "output-format", "rpc-addr", "sign-mode", "timeout"]
    ∧ decodeValue
          (encodeValue (ChainConfigToHermesRelayerChainConfig cfg keyName rpcAddr grpcAddr).value)
        = some (ChainConfigToHermesRelayerChainConfig cfg keyName rpcAddr grpcAddr).value
    ∧ Option.map encodeValue
          (decodeValue
            (encodeValue (ChainConfigToHermesRelayerChainConfig cfg keyName rpcAddr grpcAddr).value))
        = some
            (encodeValue (ChainConfigToHermesRelayerChainConfig cfg keyName rpcAddr grpcAddr).value) := by
  refine ⟨?_, rfl, rfl, rfl⟩
  unfold ConfigContent marshalConfig marshalValue
  simp [ChainConfigToHermesRelayerChainConfig, hfin, encodeValue, backendTest]

/-- C4 witness: the amended theorem at a concrete chain configuration whose
gas-adjustment is the finite bit pattern of 2.0. -/
theorem configContent_fields_and_roundtrip_witness :
    GoFloat64.isFinite ⟨4611686018427387904⟩ = true
    ∧ ConfigContent ⟨"cosmos", "chain-1", "cosmos", ⟨4611686018427387904⟩, "0.01stake"⟩
          "relayer-key" "rpc:26657" "grpc:9090" =
        .ok [("type", Jval.str "cosmos"),
             ("value", Jval.obj
               [("account-prefix", Jval.str "cosmos"),
                ("chain-id", Jval.str "chain-1"),
                ("debug", Jval.bool true),
                ("grpc-addr", Jval.str "grpc:9090"),
                ("gas-adjustment", Jval.num ⟨4611686018427387904⟩),
                ("gas-prices", Jval.str "0.01stake"),
                ("key", Jval.str "relayer-key"),
                ("keyring-backend", Jval.str "test"),
                ("output-format", Jval.str "json"),
                ("rpc-addr", Jval.str "rpc:26657"),
                ("sign-mode", Jval.str "direct"),
                ("timeout", Jval.str "10s")])] :=
  ⟨by decide,
   (configContent_fields_and_roundtrip
      ⟨"cosmos", "chain-1", "cosmos", ⟨4611686018427387904⟩, "0.01stake"⟩
      "relayer-key" "rpc:26657" "grpc:9090" (by decide)).1⟩

theorem flatMap_cleanupContainerCalls (t : String) (l : List dockerutil.Container) :
    l.flatMap (dockerutil.cleanupContainerCalls t) =
      (l.filter (fun c => dockerutil.labelMatches t c.labels)).flatMap
        (fun c => [dockerutil.CleanupAction.stopContainer c.id 10,
                   dockerutil.CleanupAction.waitContainer c.id 5,
                   dockerutil.CleanupAction.removeContainerForce c.id]) := by
  induction l with
  | nil => rfl
  | cons c rest ih =>
    cases hm : dockerutil.labelMatches t c.labels <;>
      simp [dockerutil.cleanupContainerCalls, List.filter_cons, hm, ih]

theorem flatMap_cleanupNetworkCalls (t : String) (l : List dockerutil.Network) :
    l.flatMap (dockerutil.cleanupNetworkCalls t) =
      (l.filter (fun n => dockerutil.labelMatches t n.labels)).map
        (fun n => dockerutil.CleanupAction.removeNetwork n.id) := by
  induction l with
  | nil => rfl
  | cons n rest ih =>
    cases hm : dockerutil.labelMatches t n.labels <;>
      simp [dockerutil.cleanupNetworkCalls, List.filter_cons, hm, ih]

theorem filter_filter_of_imp {α : Type} (p q : α → Bool) (l : List α)
    (h : ∀ a, q a = true → p a = true) :
    (l.filter p).filter q = l.filter q := by
  induction l with
  | nil => rfl
  | cons a rest ih =>
    cases hq : q a with
    | true => simp [List.filter_cons, h a hq, hq, ih]
    | false =>
      cases hp : p a <;> simp [List.filter_cons, hp, hq, ih]

theorem filter_of_filter_not {α : Type} (p : α → Bool) (l : List α) :
    (l.filter (fun a => !p a)).filter p = [] := by
  induction l with
  | nil => rfl
  | cons a rest ih =>
    cases hp : p a <;> simp [List.filter_cons, hp, ih]

theorem filter_idem {α : Type} (p : α → Bool) (l : List α) :
    (l.filter p).filter p = l.filter p := by
  induction l with
  | nil => rfl
  | cons a rest ih =>
    cases hp : p a <;> simp [List.filter_cons, hp, ih]

theorem dockerCleanup_allOK (t : String) (s : dockerutil.DockerState) :
    dockerutil.dockerCleanup t dockerutil.allOK s =
      (⟨s.containers.filter (fun c => !dockerutil.labelMatches t c.labels),
        s.networks.filter (fun n => !dockerutil.labelMatches t n.labels)⟩,
       (s.containers.filter (fun c => dockerutil.labelMatches t c.labels)).flatMap
           (fun c => [dockerutil.CleanupAction.stopContainer c.id 10,
                      dockerutil.CleanupAction.waitContainer c.id 5,
                      dockerutil.CleanupAction.removeContainerForce c.id]) ++
         (s.networks.filter (fun n => dockerutil.labelMatches t n.labels)).map
           (fun n => dockerutil.CleanupAction.removeNetwork n.id)) := by
  simp [dockerutil.dockerCleanup, dockerutil.allOK, flatMap_cleanupContainerCalls,
    flatMap_cleanupNetworkCalls]

/-- C5: with every docker client call succeeding, the first cleanup run
removes exactly the containers and networks labelled with the cleanup key
and the test name, and a second run in succession is idempotent: it finds no
matching resource, attempts no client call, and leaves the state of the
first run unchanged. -/
theorem dockerCleanup_idempotent (t : String) (s : dockerutil.DockerState) :
    (dockerutil.dockerCleanup t dockerutil.allOK s).1 =
        ⟨s.containers.filter (fun c => !dockerutil.labelMatches t c.labels),
         s.networks.filter (fun n => !dockerutil.labelMatches t n.labels)⟩
    ∧ dockerutil.dockerCleanup t dockerutil.allOK
          ((dockerutil.dockerCleanup t dockerutil.allOK s).1) =
        ((dockerutil.dockerCleanup t dockerutil.allOK s).1, []) := by
  constructor
  · rw [dockerCleanup_allOK]
  · rw [dockerCleanup_allOK, dockerCleanup_allOK]
    simp [filter_of_filter_not, filter_idem]

theorem dockerCleanup_calls_eq (t : String) (o : dockerutil.ClientOutcome)
    (s : dockerutil.DockerState) :
    (dockerutil.dockerCleanup t o s).2 =
      (if o.listContainersOK then
          (s.containers.filter (fun c => dockerutil.labelMatches t c.labels)).flatMap
            (fun c => [dockerutil.CleanupAction.stopContainer c.id 10,
                       dockerutil.CleanupAction.waitContainer c.id 5,
                       dockerutil.CleanupAction.removeContainerForce c.id])
        else []) ++
      (if o.listNetworksOK then
          (s.networks.filter (fun n => dockerutil.labelMatches t n.labels)).map
            (fun n => dockerutil.CleanupAction.removeNetwork n.id)
        else []) := by
  cases hc : o.listContainersOK <;> cases hn : o.listNetworksOK <;>
    simp [dockerutil.dockerCleanup, hc, hn, flatMap_cleanupContainerCalls,
      flatMap_cleanupNetworkCalls]

/-- C6: for every container whose labels carry the cleanup key `"ibctest"`
mapped to the test name, teardown attempts, in order, a stop with a
10-second grace period, a wait bounded by a 5-second timeout, then a
force-remove; every matching network is removed directly with no stop/wait
step. -/
theorem dockerCleanup_call_order (t : String) (o : dockerutil.ClientOutcome)
    (s : dockerutil.DockerState) :
    (dockerutil.dockerCleanup t o s).2 =
      (if o.listContainersOK then
          (s.containers.filter (fun c => dockerutil.labelMatches t c.labels)).flatMap
            (fun c => [dockerutil.CleanupAction.stopContainer c.id 10,
                       dockerutil.CleanupAction.waitContainer c.id 5,
                       dockerutil.CleanupAction.removeContainerForce c.id])
        else []) ++
      (if o.listNetworksOK then
          (s.networks.filter (fun n => dockerutil.labelMatches t n.labels)).map
            (fun n => dockerutil.CleanupAction.removeNetwork n.id)
        else []) :=
  dockerCleanup_calls_eq t o s

/-- C7: cleanup for a test name never touches a resource that does not carry
the label `"ibctest" ↦ testName`: the non-matching containers and networks
of the state survive unchanged (in order), and every attempted client call
targets the id of a matching resource. -/
theorem dockerCleanup_frame (t : String) (o : dockerutil.ClientOutcome)
    (s : dockerutil.DockerState) :
    ((dockerutil.dockerCleanup t o s).1.containers.filter
          (fun c => !dockerutil.labelMatches t c.labels)
        = s.containers.filter (fun c => !dockerutil.labelMatches t c.labels))
    ∧ ((dockerutil.dockerCleanup t o s).1.networks.filter
          (fun n => !dockerutil.labelMatches t n.labels)
        = s.networks.filter (fun n => !dockerutil.labelMatches t n.labels))
    ∧ (∀ a ∈ (dockerutil.dockerCleanup t o s).2,
        a.target ∈ dockerutil.matchingTargets t s) := by
  refine ⟨?_, ?_, ?_⟩
  · exact filter_filter_of_imp _ _ _ (fun c hc => by
      have hm : dockerutil.labelMatches t c.labels = false := by simpa using hc
      simp [hm])
  · exact filter_filter_of_imp _ _ _ (fun n hn => by
      have hm : dockerutil.labelMatches t n.labels = false := by simpa using hn
      simp [hm])
  · intro a ha
    rw [dockerCleanup_calls_eq] at ha
    unfold dockerutil.matchingTargets
    rcases List.mem_append.mp ha with h | h
    · cases hcOK : o.listContainersOK with
      | false => rw [hcOK] at h; simp at h
      | true =>
        rw [hcOK] at h
        simp only [if_true] at h
        obtain ⟨c, hcmem, hca⟩ := List.mem_flatMap.mp h
        obtain ⟨hcm, hmatch⟩ := List.mem_filter.mp hcmem
        refine List.mem_append.mpr (Or.inl ?_)
        simp only [List.mem_map]
        refine ⟨c, List.mem_filter.mpr ⟨hcm, hmatch⟩, ?_⟩
        simp only [List.mem_cons, List.not_mem_nil, or_false] at hca
        rcases hca with rfl | rfl | rfl <;> rfl
    · cases hnOK : o.listNetworksOK with
      | false => rw [hnOK] at h; simp at h
      | true =>
        rw [hnOK] at h
        simp only [if_true] at h
        obtain ⟨n, hnmem, hna⟩ := List.mem_map.mp h
        obtain ⟨hnm, hmatch⟩ := List.mem_filter.mp hnmem
        refine List.mem_append.mpr (Or.inr ?_)
        simp only [List.mem_map]
        exact ⟨n, List.mem_filter.mpr ⟨hnm, hmatch⟩, by rw [← hna]; rfl⟩

theorem countP_stop_calls (t i : String) (l : List dockerutil.Container) :
    (l.flatMap (dockerutil.cleanupContainerCalls t)).countP
        (fun a => a = dockerutil.CleanupAction.stopContainer i 10)
      = (l.filter (fun c => c.id = i && dockerutil.labelMatches t c.labels)).length := by
  induction l with
  | nil => rfl
  | cons c rest ih =>
    cases hm : dockerutil.labelMatches t c.labels <;> by_cases hi : c.id = i <;>
      simp [dockerutil.cleanupContainerCalls, hm, hi, List.countP_append, List.countP_cons,
        List.filter_cons, ih]

theorem countP_wait_calls (t i : String) (l : List dockerutil.Container) :
    (l.flatMap (dockerutil.cleanupContainerCalls t)).countP
        (fun a => a = dockerutil.CleanupAction.waitContainer i 5)
      = (l.filter (fun c => c.id = i && dockerutil.labelMatches t c.labels)).length := by
  induction l with
  | nil => rfl
  | cons c rest ih =>
    cases hm : dockerutil.labelMatches t c.labels <;> by_cases hi : c.id = i <;>
      simp [dockerutil.cleanupContainerCalls, hm, hi, List.countP_append, List.countP_cons,
        List.filter_cons, ih]

theorem countP_removeForce_calls (t i : String) (l : List dockerutil.Container) :
    (l.flatMap (dockerutil.cleanupContainerCalls t)).countP
        (fun a => a = dockerutil.CleanupAction.removeContainerForce i)
      = (l.filter (fun c => c.id = i && dockerutil.labelMatches t c.labels)).length := by
  induction l with
  | nil => rfl
  | cons c rest ih =>
    cases hm : dockerutil.labelMatches t c.labels <;> by_cases hi : c.id = i <;>
      simp [dockerutil.cleanupContainerCalls, hm, hi, List.countP_append, List.countP_cons,
        List.filter_cons, ih]

theorem countP_removeNetwork_calls (t i : String) (l : List dockerutil.Network) :
    (l.flatMap (dockerutil.cleanupNetworkCalls t)).countP
        (fun a => a = dockerutil.CleanupAction.removeNetwork i)
      = (l.filter (fun n => n.id = i && dockerutil.labelMatches t n.labels)).length := by
  induction l with
  | nil => rfl
  | cons n rest ih =>
    cases hm : dockerutil.labelMatches t n.labels <;> by_cases hi : n.id = i <;>
      simp [dockerutil.cleanupNetworkCalls, hm, hi, List.countP_append, List.countP_cons,
        List.filter_cons, ih]

theorem net_calls_countP_zero (t : String) (p : dockerutil.CleanupAction → Bool)
    (hp : ∀ j, p (dockerutil.CleanupAction.removeNetwork j) = false)
    (l : List dockerutil.Network) :
    (l.flatMap (dockerutil.cleanupNetworkCalls t)).countP p = 0 := by
  induction l with
  | nil => rfl
  | cons n rest ih =>
    cases hm : dockerutil.labelMatches t n.labels <;>
      simp [dockerutil.cleanupNetworkCalls, hm, List.countP_append, List.countP_cons, hp, ih]

theorem container_calls_countP_removeNetwork (t i : String) (l : List dockerutil.Container) :
    (l.flatMap (dockerutil.cleanupContainerCalls t)).countP
      (fun a => a = dockerutil.CleanupAction.removeNetwork i) = 0 := by
  induction l with
  | nil => rfl
  | cons c rest ih =>
    cases hm : dockerutil.labelMatches t c.labels <;>
      simp [dockerutil.cleanupContainerCalls, hm, List.countP_append, List.countP_cons, ih]

/-- C8: cleanup is best-effort with exactly one attempt per resource.  The
trace of attempted client calls is unchanged under any assignment of
failures to the stop, wait and remove calls (their errors are discarded, the
routine runs to completion), and for every id the trace holds exactly one
stop, one wait and one force-remove per matching container of that id (when
containers were listed) and exactly one network-remove per matching network
of that id (when networks were listed) — no retry, no second attempt. -/
theorem dockerCleanup_best_effort (t : String) (o : dockerutil.ClientOutcome)
    (s : dockerutil.DockerState) (i : String) :
    (∀ f g h k : String → Bool,
      (dockerutil.dockerCleanup t
          ⟨o.listContainersOK, o.listNetworksOK, f, g, h, k⟩ s).2 =
        (dockerutil.dockerCleanup t o s).2)
    ∧ (dockerutil.dockerCleanup t o s).2.countP
          (fun a => a = dockerutil.CleanupAction.stopContainer i 10)
        = (if o.listContainersOK then
            (s.containers.filter
              (fun c => c.id = i && dockerutil.labelMatches t c.labels)).length
          else 0)
    ∧ (dockerutil.dockerCleanup t o s).2.countP
          (fun a => a = dockerutil.CleanupAction.waitContainer i 5)
        = (if o.listContainersOK then
            (s.containers.filter
              (fun c => c.id = i && dockerutil.labelMatches t c.labels)).length
          else 0)
    ∧ (dockerutil.dockerCleanup t o s).2.countP
          (fun a => a = dockerutil.CleanupAction.removeContainerForce i)
        = (if o.listContainersOK then
            (s.containers.filter
              (fun c => c.id = i && dockerutil.labelMatches t c.labels)).length
          else 0)
    ∧ (dockerutil.dockerCleanup t o s).2.countP
          (fun a => a = dockerutil.CleanupAction.removeNetwork i)
        = (if o.listNetworksOK then
            (s.networks.filter
              (fun n => n.id = i && dockerutil.labelMatches t n.labels)).length
          else 0) := by
  have hzStop := net_calls_countP_zero t
    (fun a => decide (a = dockerutil.CleanupAction.stopContainer i 10))
    (fun j => by simp) s.networks
  have hzWait := net_calls_countP_zero t
    (fun a => decide (a = dockerutil.CleanupAction.waitContainer i 5))
    (fun j => by simp) s.networks
  have hzForce := net_calls_countP_zero t
    (fun a => decide (a = dockerutil.CleanupAction.removeContainerForce i))
    (fun j => by simp) s.networks
  refine ⟨fun f g h k => rfl, ?_, ?_, ?_, ?_⟩
  · cases hc : o.listContainersOK <;> cases hn : o.listNetworksOK <;>
      simp [dockerutil.dockerCleanup, hc, hn, List.countP_append, countP_stop_calls, hzStop]
  · cases hc : o.listContainersOK <;> cases hn : o.listNetworksOK <;>
      simp [dockerutil.dockerCleanup, hc, hn, List.countP_append, countP_wait_calls, hzWait]
  · cases hc : o.listContainersOK <;> cases hn : o.listNetworksOK <;>
      simp [dockerutil.dockerCleanup, hc, hn, List.countP_append, countP_removeForce_calls,
        hzForce]
  · cases hc : o.listContainersOK <;> cases hn : o.listNetworksOK <;>
      simp [dockerutil.dockerCleanup, hc, hn, List.countP_append,
        countP_removeNetwork_calls, container_calls_countP_removeNetwork]
